import Mathlib

/-!
Shallow embedding of `src/utils/BallPhysics.ts` (the 8-ball trajectory
predictor) over the real numbers, together with theorems settling the
spec claims about it.  JavaScript numbers are idealised as `ℝ`; the one
place where the code distinguishes non-finite numbers (`isFinite` on the
launch angle) is modelled by the explicit `JSNum` type.
-/

namespace BallPhysics

/-- Point record `{ x, y }` from `BallPhysics.ts`. -/
structure Point where
  x : ℝ
  y : ℝ

/-- Velocity record `{ vx, vy }`. -/
structure Velocity where
  vx : ℝ
  vy : ℝ

/-- Result record of `checkWallCollisions`:
`{ hasCollision, collisionPoint, newVelocity }`. -/
structure CollisionResult where
  hasCollision : Bool
  collisionPoint : Point
  newVelocity : Velocity

/-- The `PhysicsConfig` interface. -/
structure PhysicsConfig where
  ballRadius : ℝ
  friction : ℝ
  minVelocity : ℝ
  timeStep : ℝ
  maxPoints : ℕ
  velocityScale : ℝ

/-- Constant `DEFAULT_CONFIG` of the first (radius-8) simulator copy. -/
noncomputable def DEFAULT_CONFIG : PhysicsConfig :=
  { ballRadius := 8
    friction := 0.985
    minVelocity := 0.3
    timeStep := 0.08
    maxPoints := 300
    velocityScale := 0.15 }

/-- A JavaScript number as seen by `isFinite`: either a finite real or
one of the non-finite values `NaN`, `Infinity`, `-Infinity`. -/
inductive JSNum where
  | fin (r : ℝ) : JSNum
  | nan : JSNum
  | inf : JSNum
  | negInf : JSNum

/-- JavaScript `isFinite`. -/
def JSNum.isFinite : JSNum → Bool
  | .fin _ => true
  | _ => false

/-- The real value of a finite `JSNum` (only consulted on finite input). -/
def JSNum.toReal : JSNum → ℝ
  | .fin r => r
  | _ => 0

/-- The `PredictedPathParams` interface: argument record of
`getPredictedPath`.  `maxBounces` is the non-negative integer bounce
budget (source default 10). -/
structure PredictedPathParams where
  x : ℝ
  y : ℝ
  angleInDegrees : JSNum
  force : ℝ
  tableWidth : ℝ
  tableHeight : ℝ
  maxBounces : ℕ := 10

/-- Function `checkWallCollisions(currentPos, nextPos, velocity, tableWidth,
tableHeight, ballRadius)` (lines 125-168).  The source initialises the
result to `{ hasCollision: false, collisionPoint: nextPos, newVelocity:
velocity }` and then runs an `if / else if` ladder per axis, so each
output field is exactly the conditional below. -/
noncomputable def checkWallCollisions (currentPos nextPos : Point)
    (velocity : Velocity) (tableWidth tableHeight ballRadius : ℝ) :
    CollisionResult :=
  { hasCollision :=
      (if nextPos.x - ballRadius ≤ 0 then true
       else if nextPos.x + ballRadius ≥ tableWidth then true
       else false) ||
      (if nextPos.y - ballRadius ≤ 0 then true
       else if nextPos.y + ballRadius ≥ tableHeight then true
       else false)
    collisionPoint :=
      { x :=
          if nextPos.x - ballRadius ≤ 0 then ballRadius
          else if nextPos.x + ballRadius ≥ tableWidth then
            tableWidth - ballRadius
          else nextPos.x
        y :=
          if nextPos.y - ballRadius ≤ 0 then ballRadius
          else if nextPos.y + ballRadius ≥ tableHeight then
            tableHeight - ballRadius
          else nextPos.y }
    newVelocity :=
      { vx :=
          if nextPos.x - ballRadius ≤ 0 then |velocity.vx|
          else if nextPos.x + ballRadius ≥ tableWidth then -|velocity.vx|
          else velocity.vx
        vy :=
          if nextPos.y - ballRadius ≤ 0 then |velocity.vy|
          else if nextPos.y + ballRadius ≥ tableHeight then -|velocity.vy|
          else velocity.vy } }

/-- Speed of a velocity, `Math.sqrt(vx * vx + vy * vy)` (line 110). -/
noncomputable def speed (vx vy : ℝ) : ℝ :=
  Real.sqrt (vx * vx + vy * vy)

/-- Mutable state of the simulation loop of `getPredictedPath`:
current position, current velocity, bounce counter. -/
structure SimState where
  cx : ℝ
  cy : ℝ
  vx : ℝ
  vy : ℝ
  bounces : ℕ

/-- Whether the step proposed from state `s` collides with a wall:
the `hasCollision` flag of the resolver called on
`next = current + velocity * timeStep` (lines 71-84). -/
noncomputable def stepCollides (tableWidth tableHeight : ℝ) (s : SimState) :
    Bool :=
  (checkWallCollisions { x := s.cx, y := s.cy }
    { x := s.cx + s.vx * DEFAULT_CONFIG.timeStep
      y := s.cy + s.vy * DEFAULT_CONFIG.timeStep }
    { vx := s.vx, vy := s.vy }
    tableWidth tableHeight DEFAULT_CONFIG.ballRadius).hasCollision

/-- One iteration body of the simulation loop (lines 70-107): propose
`next`, resolve collisions, on a hit move to the contact point, take the
reflected velocity and apply the 0.92 restitution and increment
`bounces`; otherwise move to `next`; in both branches finally apply
friction. -/
noncomputable def simStep (tableWidth tableHeight : ℝ) (s : SimState) :
    SimState :=
  let nextX := s.cx + s.vx * DEFAULT_CONFIG.timeStep
  let nextY := s.cy + s.vy * DEFAULT_CONFIG.timeStep
  let collision := checkWallCollisions { x := s.cx, y := s.cy }
    { x := nextX, y := nextY } { vx := s.vx, vy := s.vy }
    tableWidth tableHeight DEFAULT_CONFIG.ballRadius
  if collision.hasCollision then
    { cx := collision.collisionPoint.x
      cy := collision.collisionPoint.y
      vx := collision.newVelocity.vx * 0.92 * DEFAULT_CONFIG.friction
      vy := collision.newVelocity.vy * 0.92 * DEFAULT_CONFIG.friction
      bounces := s.bounces + 1 }
  else
    { cx := nextX
      cy := nextY
      vx := s.vx * DEFAULT_CONFIG.friction
      vy := s.vy * DEFAULT_CONFIG.friction
      bounces := s.bounces }

/-- The `while (bounces < maxBounces && path.length < config.maxPoints)`
loop (lines 69-117), returning the list of points it appends.  The fuel
counts how many more points the `path.length` guard allows: the loop
exits when it reaches 0.  An iteration that drives the post-friction
speed below `minVelocity` breaks without appending (lines 110-113);
otherwise the updated position is appended and the loop continues. -/
noncomputable def simLoop (tableWidth tableHeight : ℝ) (maxBounces : ℕ) :
    ℕ → SimState → List Point
  | 0, _ => []
  | fuel + 1, s =>
    if s.bounces < maxBounces then
      let s' := simStep tableWidth tableHeight s
      if speed s'.vx s'.vy < DEFAULT_CONFIG.minVelocity then []
      else { x := s'.cx, y := s'.cy } ::
        simLoop tableWidth tableHeight maxBounces fuel s'
    else []

/-- Final value of the `bounces` counter after the simulation loop runs
from state `s` with the given fuel: the number of true wall-collision
events the run processes, counted on the same control flow as
`simLoop`. -/
noncomputable def simRunBounces (tableWidth tableHeight : ℝ)
    (maxBounces : ℕ) : ℕ → SimState → ℕ
  | 0, s => s.bounces
  | fuel + 1, s =>
    if s.bounces < maxBounces then
      let s' := simStep tableWidth tableHeight s
      if speed s'.vx s'.vy < DEFAULT_CONFIG.minVelocity then s'.bounces
      else simRunBounces tableWidth tableHeight maxBounces fuel s'
    else s.bounces

/-- Function `getPredictedPath` (lines 38-120).  Validation: `force <= 0` or a
non-finite `angleInDegrees` yields `[]` (lines 48-50).  Otherwise the
initial velocity is built from the angle (degrees to radians, cosine and
sine scaled by `force * velocityScale`, lines 56-58), the launch origin
is pushed (line 66), and the loop runs; the starting `path.length` is 1,
so the `path.length < maxPoints` guard admits `maxPoints - 1` more
appended points, which is the initial fuel. -/
noncomputable def getPredictedPath (p : PredictedPathParams) : List Point :=
  if p.force ≤ 0 ∨ p.angleInDegrees.isFinite = false then []
  else
    let angleInRadians := p.angleInDegrees.toReal * Real.pi / 180
    let vx := Real.cos angleInRadians * p.force * DEFAULT_CONFIG.velocityScale
    let vy := Real.sin angleInRadians * p.force * DEFAULT_CONFIG.velocityScale
    { x := p.x, y := p.y } ::
      simLoop p.tableWidth p.tableHeight p.maxBounces
        (DEFAULT_CONFIG.maxPoints - 1)
        { cx := p.x, cy := p.y, vx := vx, vy := vy, bounces := 0 }

/-- Number of true wall-collision events processed by the run of
`getPredictedPath` on `p` (0 when validation fails). -/
noncomputable def pathBounceCount (p : PredictedPathParams) : ℕ :=
  if p.force ≤ 0 ∨ p.angleInDegrees.isFinite = false then 0
  else
    let angleInRadians := p.angleInDegrees.toReal * Real.pi / 180
    let vx := Real.cos angleInRadians * p.force * DEFAULT_CONFIG.velocityScale
    let vy := Real.sin angleInRadians * p.force * DEFAULT_CONFIG.velocityScale
    simRunBounces p.tableWidth p.tableHeight p.maxBounces
      (DEFAULT_CONFIG.maxPoints - 1)
      { cx := p.x, cy := p.y, vx := vx, vy := vy, bounces := 0 }

/-- JavaScript `Math.atan2(y, x)`: the argument of the complex number
`x + y i`, in `(-π, π]`, with `atan2 0 0 = 0` as in JavaScript. -/
noncomputable def atan2 (y x : ℝ) : ℝ :=
  Complex.arg { re := x, im := y }

/-- Function `calculateAngleBetweenPoints` (lines 173-181): bearing from `point1`
to `point2` in degrees. -/
noncomputable def calculateAngleBetweenPoints (point1 point2 : Point) : ℝ :=
  atan2 (point2.y - point1.y) (point2.x - point1.x) * 180 / Real.pi

/-- Function `calculateDistance` (lines 186-190). -/
noncomputable def calculateDistance (point1 point2 : Point) : ℝ :=
  Real.sqrt ((point2.x - point1.x) * (point2.x - point1.x) +
    (point2.y - point1.y) * (point2.y - point1.y))

/-- Truncation toward zero, as used by the JavaScript `%` operator. -/
noncomputable def jsTrunc (x : ℝ) : ℤ :=
  if 0 ≤ x then ⌊x⌋ else ⌈x⌉

/-- JavaScript remainder `a % b`: `a - b * trunc(a / b)`, taking the
sign of the dividend. -/
noncomputable def jsMod (a b : ℝ) : ℝ :=
  a - b * jsTrunc (a / b)

/-- Function `normalizeAngle` (lines 195-201): `angle % 360`, then `+ 360` if the
remainder is negative. -/
noncomputable def normalizeAngle (angleInDegrees : ℝ) : ℝ :=
  let normalized := jsMod angleInDegrees 360
  if normalized < 0 then normalized + 360 else normalized

/-- Function `degreesToRadians` (lines 206-208). -/
noncomputable def degreesToRadians (degrees : ℝ) : ℝ :=
  degrees * Real.pi / 180

/-- Function `radiansToDegrees` (lines 213-215). -/
noncomputable def radiansToDegrees (radians : ℝ) : ℝ :=
  radians * 180 / Real.pi

/-- Legacy `calculateAngle` (lines 304-309): `Math.atan2` of the same
deltas, returned in radians. -/
noncomputable def calculateAngle (point1 point2 : Point) : ℝ :=
  atan2 (point2.y - point1.y) (point2.x - point1.x)

/-- Legacy `calculateDistanceOld` (lines 312-319). -/
noncomputable def calculateDistanceOld (point1 point2 : Point) : ℝ :=
  Real.sqrt ((point2.x - point1.x) * (point2.x - point1.x) +
    (point2.y - point1.y) * (point2.y - point1.y))

/-- Decrement of a natural ceiling under a positive real: measure lemma
for the `while (angle < 0)` loop. -/
lemma natCeil_sub_one_lt {x : ℝ} (hx : 0 < x) : ⌈x - 1⌉₊ < ⌈x⌉₊ := by
  have h1 : 0 < ⌈x⌉₊ := Nat.ceil_pos.mpr hx
  have h2 : ⌈x - 1⌉₊ ≤ ⌈x⌉₊ - 1 := by
    apply Nat.ceil_le.mpr
    have hle : x ≤ (⌈x⌉₊ : ℝ) := Nat.le_ceil x
    have hcast : ((⌈x⌉₊ - 1 : ℕ) : ℝ) = (⌈x⌉₊ : ℝ) - 1 := by
      push_cast [Nat.cast_sub h1]
      ring
    rw [hcast]
    linarith
  omega

/-- The `while (angle < 0) angle += 2 * Math.PI` loop of
`normalizeAngleOld` (line 323). -/
noncomputable def normUp (angle : ℝ) : ℝ :=
  if h : angle < 0 then normUp (angle + 2 * Real.pi) else angle
termination_by ⌈-angle / (2 * Real.pi)⌉₊
decreasing_by
  have hπ : (0 : ℝ) < 2 * Real.pi := by positivity
  have heq : -(angle + 2 * Real.pi) / (2 * Real.pi) =
      -angle / (2 * Real.pi) - 1 := by
    field_simp
    ring
  rw [heq]
  exact natCeil_sub_one_lt (div_pos (neg_pos.mpr h) hπ)

/-- The `while (angle >= 2 * Math.PI) angle -= 2 * Math.PI` loop of
`normalizeAngleOld` (line 324). -/
noncomputable def normDown (angle : ℝ) : ℝ :=
  if h : angle ≥ 2 * Real.pi then normDown (angle - 2 * Real.pi) else angle
termination_by ⌊angle / (2 * Real.pi)⌋₊
decreasing_by
  have hπ : (0 : ℝ) < 2 * Real.pi := by positivity
  have heq : (angle - 2 * Real.pi) / (2 * Real.pi) =
      angle / (2 * Real.pi) - 1 := by
    field_simp
  have h1 : 1 ≤ ⌊angle / (2 * Real.pi)⌋₊ := by
    apply Nat.le_floor
    push_cast
    exact (one_le_div hπ).mpr h
  rw [heq, Nat.floor_sub_one]
  omega

/-- Legacy `normalizeAngleOld` (lines 322-326): the two `while` loops in
sequence. -/
noncomputable def normalizeAngleOld (angle : ℝ) : ℝ :=
  normDown (normUp angle)

/-- Modelled from the spec: the path that §7 of the spec asserts for
`maxBounces = 0` — "a valid path consisting only of straight-line motion
until speed decay or point cap, with zero recorded collisions".  This is
the simulator's own integration loop with the collision branch removed:
advance by `velocity * timeStep`, apply friction, stop (without
appending) when speed drops below `minVelocity`, else append, capped at
`maxPoints` recorded points. -/
noncomputable def specStraightLoop :
    ℕ → ℝ → ℝ → ℝ → ℝ → List Point
  | 0, _, _, _, _ => []
  | fuel + 1, cx, cy, vx, vy =>
    let nextX := cx + vx * DEFAULT_CONFIG.timeStep
    let nextY := cy + vy * DEFAULT_CONFIG.timeStep
    let vx' := vx * DEFAULT_CONFIG.friction
    let vy' := vy * DEFAULT_CONFIG.friction
    if speed vx' vy' < DEFAULT_CONFIG.minVelocity then []
    else { x := nextX, y := nextY } ::
      specStraightLoop fuel nextX nextY vx' vy'

/-- Modelled from the spec: the full `maxBounces = 0` behaviour claimed
by §7 — validation and initial-velocity setup as in the source, then
straight-line motion until speed decay or the point cap. -/
noncomputable def specStraightLinePath (p : PredictedPathParams) :
    List Point :=
  if p.force ≤ 0 ∨ p.angleInDegrees.isFinite = false then []
  else
    let angleInRadians := p.angleInDegrees.toReal * Real.pi / 180
    let vx := Real.cos angleInRadians * p.force * DEFAULT_CONFIG.velocityScale
    let vy := Real.sin angleInRadians * p.force * DEFAULT_CONFIG.velocityScale
    { x := p.x, y := p.y } ::
      specStraightLoop (DEFAULT_CONFIG.maxPoints - 1) p.x p.y vx vy

/-! ### Shared lemmas about the collision resolver -/

/-- Reflection never changes the horizontal speed magnitude. -/
lemma cwc_abs_vx (cur next : Point) (vel : Velocity) (W H r : ℝ) :
    |(checkWallCollisions cur next vel W H r).newVelocity.vx| = |vel.vx| := by
  simp only [checkWallCollisions]
  split_ifs <;> simp [abs_abs]

/-- Reflection never changes the vertical speed magnitude. -/
lemma cwc_abs_vy (cur next : Point) (vel : Velocity) (W H r : ℝ) :
    |(checkWallCollisions cur next vel W H r).newVelocity.vy| = |vel.vy| := by
  simp only [checkWallCollisions]
  split_ifs <;> simp [abs_abs]

/-- The resolved x coordinate always lies in `[r, W - r]` when the table
is at least a ball-diameter wide. -/
lemma cwc_point_x_mem (cur next : Point) (vel : Velocity) (W H r : ℝ)
    (hW : 2 * r ≤ W) :
    r ≤ (checkWallCollisions cur next vel W H r).collisionPoint.x ∧
    (checkWallCollisions cur next vel W H r).collisionPoint.x ≤ W - r := by
  simp only [checkWallCollisions]
  split_ifs with h1 h2 <;> constructor <;> linarith

/-- The resolved y coordinate always lies in `[r, H - r]` when the table
is at least a ball-diameter tall. -/
lemma cwc_point_y_mem (cur next : Point) (vel : Velocity) (W H r : ℝ)
    (hH : 2 * r ≤ H) :
    r ≤ (checkWallCollisions cur next vel W H r).collisionPoint.y ∧
    (checkWallCollisions cur next vel W H r).collisionPoint.y ≤ H - r := by
  simp only [checkWallCollisions]
  split_ifs with h1 h2 <;> constructor <;> linarith

/-- When the resolver reports no collision, all four boundary conditions
are false. -/
lemma cwc_no_collision (cur next : Point) (vel : Velocity) (W H r : ℝ)
    (h : (checkWallCollisions cur next vel W H r).hasCollision = false) :
    ¬(next.x - r ≤ 0) ∧ ¬(next.x + r ≥ W) ∧
    ¬(next.y - r ≤ 0) ∧ ¬(next.y + r ≥ H) := by
  simp only [checkWallCollisions] at h
  split_ifs at h <;> simp_all

/-- C1: `checkWallCollisions` returns the proposed point and unchanged
velocity with `collided = false` when no boundary condition holds; on a
left (resp. right) hit it clamps x to `radius` (resp. `width - radius`)
and forces `vx` to `+|vx|` (resp. `-|vx|`); symmetrically on y for top
and bottom; the horizontal and vertical checks are independent, so both
axes can clamp in the same call; and the reflected components keep their
magnitudes. -/
theorem checkWallCollisions_resolves :
    ∀ (cur next : Point) (vel : Velocity) (W H r : ℝ),
      (¬(next.x - r ≤ 0) → ¬(next.x + r ≥ W) → ¬(next.y - r ≤ 0) →
        ¬(next.y + r ≥ H) →
        checkWallCollisions cur next vel W H r =
          { hasCollision := false, collisionPoint := next,
            newVelocity := vel }) ∧
      (next.x - r ≤ 0 →
        (checkWallCollisions cur next vel W H r).collisionPoint.x = r ∧
        (checkWallCollisions cur next vel W H r).newVelocity.vx = |vel.vx| ∧
        (checkWallCollisions cur next vel W H r).hasCollision = true) ∧
      (¬(next.x - r ≤ 0) → next.x + r ≥ W →
        (checkWallCollisions cur next vel W H r).collisionPoint.x = W - r ∧
        (checkWallCollisions cur next vel W H r).newVelocity.vx =
          -|vel.vx| ∧
        (checkWallCollisions cur next vel W H r).hasCollision = true) ∧
      (next.y - r ≤ 0 →
        (checkWallCollisions cur next vel W H r).collisionPoint.y = r ∧
        (checkWallCollisions cur next vel W H r).newVelocity.vy = |vel.vy| ∧
        (checkWallCollisions cur next vel W H r).hasCollision = true) ∧
      (¬(next.y - r ≤ 0) → next.y + r ≥ H →
        (checkWallCollisions cur next vel W H r).collisionPoint.y = H - r ∧
        (checkWallCollisions cur next vel W H r).newVelocity.vy =
          -|vel.vy| ∧
        (checkWallCollisions cur next vel W H r).hasCollision = true) ∧
      (|(checkWallCollisions cur next vel W H r).newVelocity.vx| =
        |vel.vx| ∧
       |(checkWallCollisions cur next vel W H r).newVelocity.vy| =
        |vel.vy|) := by
  intro cur next vel W H r
  refine ⟨?_, ?_, ?_, ?_, ?_, cwc_abs_vx cur next vel W H r,
    cwc_abs_vy cur next vel W H r⟩
  · intro h1 h2 h3 h4
    simp only [checkWallCollisions, if_neg h1, if_neg h2, if_neg h3,
      if_neg h4, Bool.or_self]
  · intro h1
    simp only [checkWallCollisions, if_pos h1]
    exact ⟨trivial, trivial, by simp⟩
  · intro h1 h2
    simp only [checkWallCollisions, if_neg h1, if_pos h2]
    exact ⟨trivial, trivial, by simp⟩
  · intro h3
    simp only [checkWallCollisions, if_pos h3]
    exact ⟨trivial, trivial, by simp⟩
  · intro h3 h4
    simp only [checkWallCollisions, if_neg h3, if_pos h4]
    exact ⟨trivial, trivial, by simp⟩

/-- Witness for C1: a non-colliding step and a simultaneous
top-left-corner step on the 300 × 150 table with radius 8. -/
theorem checkWallCollisions_resolves_witness :
    checkWallCollisions { x := 0, y := 0 } { x := 100, y := 75 }
        { vx := 1, vy := 2 } 300 150 8 =
      { hasCollision := false, collisionPoint := { x := 100, y := 75 },
        newVelocity := { vx := 1, vy := 2 } } ∧
    (checkWallCollisions { x := 10, y := 10 } { x := 4, y := 4 }
        { vx := -3, vy := -4 } 300 150 8).collisionPoint.x = 8 ∧
    (checkWallCollisions { x := 10, y := 10 } { x := 4, y := 4 }
        { vx := -3, vy := -4 } 300 150 8).newVelocity.vx = |(-3 : ℝ)| ∧
    (checkWallCollisions { x := 10, y := 10 } { x := 4, y := 4 }
        { vx := -3, vy := -4 } 300 150 8).collisionPoint.y = 8 ∧
    (checkWallCollisions { x := 10, y := 10 } { x := 4, y := 4 }
        { vx := -3, vy := -4 } 300 150 8).hasCollision = true := by
  refine ⟨?_, ?_⟩
  · exact (checkWallCollisions_resolves { x := 0, y := 0 }
      { x := 100, y := 75 } { vx := 1, vy := 2 } 300 150 8).1
      (by norm_num) (by norm_num) (by norm_num) (by norm_num)
  · obtain ⟨-, hleft, -, htop, -, -⟩ := checkWallCollisions_resolves
      { x := 10, y := 10 } { x := 4, y := 4 } { vx := -3, vy := -4 }
      300 150 8
    obtain ⟨hx, hvx, hcol⟩ := hleft (by norm_num)
    obtain ⟨hy, -, -⟩ := htop (by norm_num)
    exact ⟨hx, hvx, hy, hcol⟩

/-! ### Shared lemmas about the simulator -/

/-- On valid input the path is the origin followed by the loop output. -/
lemma getPredictedPath_valid_eq (p : PredictedPathParams)
    (hf : 0 < p.force) (ha : p.angleInDegrees.isFinite = true) :
    getPredictedPath p =
      { x := p.x, y := p.y } ::
        simLoop p.tableWidth p.tableHeight p.maxBounces
          (DEFAULT_CONFIG.maxPoints - 1)
          { cx := p.x, cy := p.y
            vx := Real.cos (p.angleInDegrees.toReal * Real.pi / 180) *
              p.force * DEFAULT_CONFIG.velocityScale
            vy := Real.sin (p.angleInDegrees.toReal * Real.pi / 180) *
              p.force * DEFAULT_CONFIG.velocityScale
            bounces := 0 } := by
  have hcond : ¬(p.force ≤ 0 ∨ p.angleInDegrees.isFinite = false) := by
    rw [not_or]
    exact ⟨not_le.mpr hf, by simp [ha]⟩
  simp only [getPredictedPath, if_neg hcond]

/-- The loop appends at most `fuel` points. -/
lemma simLoop_length_le (W H : ℝ) (maxB : ℕ) :
    ∀ fuel s, (simLoop W H maxB fuel s).length ≤ fuel
  | 0, s => by simp [simLoop]
  | fuel + 1, s => by
    simp only [simLoop]
    split_ifs
    · simp
    · simpa using Nat.succ_le_succ (simLoop_length_le W H maxB fuel _)
    · simp

/-- One loop body increments the bounce counter by at most one. -/
lemma simStep_bounces_le (W H : ℝ) (s : SimState) :
    (simStep W H s).bounces ≤ s.bounces + 1 := by
  rw [simStep]
  split_ifs <;> simp

/-- A loop run started within the bounce budget stays within it. -/
lemma simRunBounces_le (W H : ℝ) (maxB : ℕ) :
    ∀ fuel s, s.bounces ≤ maxB → simRunBounces W H maxB fuel s ≤ maxB
  | 0, _, h => h
  | fuel + 1, s, h => by
    simp only [simRunBounces]
    split_ifs with hb hv
    · exact le_trans (simStep_bounces_le W H s) hb
    · exact simRunBounces_le W H maxB fuel _
        (le_trans (simStep_bounces_le W H s) hb)
    · exact h

/-- When the bounce budget is already exhausted the loop appends
nothing. -/
lemma simLoop_of_budget_spent (W H : ℝ) (maxB : ℕ) (fuel : ℕ)
    (s : SimState) (h : maxB ≤ s.bounces) :
    simLoop W H maxB fuel s = [] := by
  cases fuel with
  | zero => rw [simLoop]
  | succ n =>
    rw [simLoop, if_neg (by omega)]

/-- On invalid input the path is empty. -/
lemma getPredictedPath_invalid_eq_nil (p : PredictedPathParams)
    (h : p.force ≤ 0 ∨ p.angleInDegrees.isFinite = false) :
    getPredictedPath p = [] := by
  simp only [getPredictedPath, if_pos h]

/-- C2: any request with `force ≤ 0` or a non-finite angle yields the
empty path, regardless of all other parameters. -/
theorem getPredictedPath_invalid_empty (p : PredictedPathParams)
    (h : p.force ≤ 0 ∨ p.angleInDegrees.isFinite = false) :
    getPredictedPath p = [] := by
  simp only [getPredictedPath, if_pos h]

/-- Witness for C2: zero force, and separately a `NaN` angle. -/
theorem getPredictedPath_invalid_empty_witness :
    getPredictedPath
      { x := 75, y := 75, angleInDegrees := JSNum.fin 45,
        force := 0, tableWidth := 300, tableHeight := 150 } = [] ∧
    getPredictedPath
      { x := 75, y := 75, angleInDegrees := JSNum.nan,
        force := 50, tableWidth := 300, tableHeight := 150 } = [] :=
  ⟨getPredictedPath_invalid_empty _ (Or.inl (by norm_num)),
   getPredictedPath_invalid_empty _ (Or.inr rfl)⟩

/-- C3: on any valid request the path is non-empty and its first
element is exactly the launch origin. -/
theorem getPredictedPath_starts_at_origin (p : PredictedPathParams)
    (hf : 0 < p.force) (ha : p.angleInDegrees.isFinite = true) :
    getPredictedPath p ≠ [] ∧
    (getPredictedPath p).head? = some { x := p.x, y := p.y } := by
  rw [getPredictedPath_valid_eq p hf ha]
  exact ⟨by simp, by simp⟩

/-- Witness for C3: the spec's concrete scenario, launch at `(75, 75)`
with force 50 and angle 0 on the 300 × 150 table. -/
theorem getPredictedPath_starts_at_origin_witness :
    getPredictedPath
      { x := 75, y := 75, angleInDegrees := JSNum.fin 0,
        force := 50, tableWidth := 300, tableHeight := 150,
        maxBounces := 8 } ≠ [] ∧
    (getPredictedPath
      { x := 75, y := 75, angleInDegrees := JSNum.fin 0,
        force := 50, tableWidth := 300, tableHeight := 150,
        maxBounces := 8 }).head? = some { x := 75, y := 75 } :=
  getPredictedPath_starts_at_origin _ (by norm_num) rfl

/-- C4: the returned path never exceeds `maxPoints = 300` entries, and
the number of true wall-collision events processed by the run never
exceeds `maxBounces`, for every input. -/
theorem getPredictedPath_caps (p : PredictedPathParams) :
    (getPredictedPath p).length ≤ DEFAULT_CONFIG.maxPoints ∧
    pathBounceCount p ≤ p.maxBounces := by
  constructor
  · by_cases h : p.force ≤ 0 ∨ p.angleInDegrees.isFinite = false
    · simp [getPredictedPath, if_pos h]
    · simp only [getPredictedPath, if_neg h, List.length_cons]
      have hlen := simLoop_length_le p.tableWidth p.tableHeight
        p.maxBounces (DEFAULT_CONFIG.maxPoints - 1)
        { cx := p.x, cy := p.y
          vx := Real.cos (p.angleInDegrees.toReal * Real.pi / 180) *
            p.force * DEFAULT_CONFIG.velocityScale
          vy := Real.sin (p.angleInDegrees.toReal * Real.pi / 180) *
            p.force * DEFAULT_CONFIG.velocityScale
          bounces := 0 }
      have hpos : 1 ≤ DEFAULT_CONFIG.maxPoints := by
        simp [DEFAULT_CONFIG]
      omega
  · by_cases h : p.force ≤ 0 ∨ p.angleInDegrees.isFinite = false
    · simp [pathBounceCount, if_pos h]
    · simp only [pathBounceCount, if_neg h]
      exact simRunBounces_le _ _ _ _ _ (Nat.zero_le _)

/-- C5: in any iteration the loop actually enters (bounce budget not yet
spent), if the post-friction speed falls below `minVelocity` the loop
stops and appends nothing — in particular the position computed in that
iteration is not recorded, so the previously appended point stays
last. -/
theorem simLoop_stop_discards_point (W H : ℝ) (maxB fuel : ℕ)
    (s : SimState) (hb : s.bounces < maxB)
    (hv : speed (simStep W H s).vx (simStep W H s).vy <
      DEFAULT_CONFIG.minVelocity) :
    simLoop W H maxB (fuel + 1) s = [] := by
  simp only [simLoop, if_pos hb, if_pos hv]

/-- Witness for C5: a slow straight step from the table centre whose
post-friction speed `0.1 · 0.985 = 0.0985` is below the 0.3 threshold,
so the loop appends nothing. -/
theorem simLoop_stop_discards_point_witness :
    simLoop 300 150 10 1
      { cx := 75, cy := 75, vx := 0.1, vy := 0, bounces := 0 } = [] := by
  refine simLoop_stop_discards_point 300 150 10 0
    { cx := 75, cy := 75, vx := 0.1, vy := 0, bounces := 0 }
    (by norm_num) ?_
  simp only [simStep, checkWallCollisions]
  norm_num [DEFAULT_CONFIG]
  rw [speed]
  apply (Real.sqrt_lt' (by norm_num)).mpr
  norm_num

/-- When the bounce budget is already exhausted the bounce counter does
not move. -/
lemma simRunBounces_of_budget_spent (W H : ℝ) (maxB : ℕ) (fuel : ℕ)
    (s : SimState) (h : maxB ≤ s.bounces) :
    simRunBounces W H maxB fuel s = s.bounces := by
  cases fuel with
  | zero => rw [simRunBounces]
  | succ n => rw [simRunBounces, if_neg (by omega)]

/-- The straight-line loop emits at least one point while fuel remains
and the friction-decayed speed stays at or above the threshold. -/
lemma specStraightLoop_ne_nil (fuel : ℕ) (cx cy vx vy : ℝ)
    (hfuel : fuel ≠ 0)
    (h : ¬(speed (vx * DEFAULT_CONFIG.friction)
      (vy * DEFAULT_CONFIG.friction) < DEFAULT_CONFIG.minVelocity)) :
    specStraightLoop fuel cx cy vx vy ≠ [] := by
  cases fuel with
  | zero => exact absurd rfl hfuel
  | succ n =>
    simp only [specStraightLoop, if_neg h]
    simp

/-- C6 counterexample: for the valid request at `(75, 75)`, angle 0°,
force 2.1 and `maxBounces = 0`, the returned path is NOT the
straight-line-until-decay path the claim describes — the loop guard
`bounces < maxBounces` fails immediately, so the path is the single
origin point, while straight-line motion until speed decay would record
further points. -/
theorem maxBounces_zero_counterexample :
    getPredictedPath
        { x := 75, y := 75, angleInDegrees := JSNum.fin 0, force := 2.1,
          tableWidth := 300, tableHeight := 150, maxBounces := 0 } ≠
      specStraightLinePath
        { x := 75, y := 75, angleInDegrees := JSNum.fin 0, force := 2.1,
          tableWidth := 300, tableHeight := 150, maxBounces := 0 } := by
  have hL : getPredictedPath
      { x := 75, y := 75, angleInDegrees := JSNum.fin 0, force := 2.1,
        tableWidth := 300, tableHeight := 150, maxBounces := 0 } =
      [{ x := 75, y := 75 }] := by
    rw [getPredictedPath_valid_eq
        { x := 75, y := 75, angleInDegrees := JSNum.fin 0, force := 2.1,
          tableWidth := 300, tableHeight := 150, maxBounces := 0 }
        (by norm_num) rfl,
      simLoop_of_budget_spent _ _ _ _ _ (by norm_num)]
  rw [hL]
  have hcond : ¬((2.1 : ℝ) ≤ 0 ∨ (JSNum.fin 0).isFinite = false) := by
    norm_num [JSNum.isFinite]
  simp only [specStraightLinePath, JSNum.toReal]
  rw [if_neg hcond]
  norm_num [Real.cos_zero, Real.sin_zero, DEFAULT_CONFIG]
  apply specStraightLoop_ne_nil _ _ _ _ _ (by norm_num)
  rw [not_lt, speed]
  simp only [DEFAULT_CONFIG]
  have h09 : ((0.3 : ℝ)) = Real.sqrt (0.3 ^ 2) :=
    (Real.sqrt_sq (by norm_num)).symm
  rw [h09]
  apply Real.sqrt_le_sqrt
  norm_num

/-- C6 (amended): with `maxBounces = 0` a valid request returns the
single-point path holding only the launch origin, with zero recorded
collisions — the simulation loop never runs because its guard requires
`bounces < maxBounces`. -/
theorem maxBounces_zero_single_point (p : PredictedPathParams)
    (hf : 0 < p.force) (ha : p.angleInDegrees.isFinite = true)
    (hb : p.maxBounces = 0) :
    getPredictedPath p = [{ x := p.x, y := p.y }] ∧
    pathBounceCount p = 0 := by
  constructor
  · rw [getPredictedPath_valid_eq p hf ha,
      simLoop_of_budget_spent _ _ _ _ _ (by omega)]
  · have hcond : ¬(p.force ≤ 0 ∨ p.angleInDegrees.isFinite = false) := by
      rw [not_or]
      exact ⟨not_le.mpr hf, by simp [ha]⟩
    simp only [pathBounceCount, if_neg hcond]
    rw [simRunBounces_of_budget_spent _ _ _ _ _ (by omega)]

/-- Witness for C6 (amended): force 2.1, angle 0°, `maxBounces = 0`. -/
theorem maxBounces_zero_single_point_witness :
    getPredictedPath
      { x := 75, y := 75, angleInDegrees := JSNum.fin 0, force := 2.1,
        tableWidth := 300, tableHeight := 150, maxBounces := 0 } =
      [{ x := 75, y := 75 }] ∧
    pathBounceCount
      { x := 75, y := 75, angleInDegrees := JSNum.fin 0, force := 2.1,
        tableWidth := 300, tableHeight := 150, maxBounces := 0 } = 0 :=
  maxBounces_zero_single_point _ (by norm_num) rfl rfl

/-- The position reached by one loop body lies within the playing
surface (ball radius inset) whenever the table is at least one ball
diameter in each extent, whether or not the step collided. -/
lemma simStep_pos_mem (W H : ℝ) (s : SimState)
    (hW : 2 * DEFAULT_CONFIG.ballRadius ≤ W)
    (hH : 2 * DEFAULT_CONFIG.ballRadius ≤ H) :
    (DEFAULT_CONFIG.ballRadius ≤ (simStep W H s).cx ∧
      (simStep W H s).cx ≤ W - DEFAULT_CONFIG.ballRadius) ∧
    (DEFAULT_CONFIG.ballRadius ≤ (simStep W H s).cy ∧
      (simStep W H s).cy ≤ H - DEFAULT_CONFIG.ballRadius) := by
  simp only [simStep]
  set next : Point :=
    { x := s.cx + s.vx * DEFAULT_CONFIG.timeStep
      y := s.cy + s.vy * DEFAULT_CONFIG.timeStep } with hnext
  by_cases hc : (checkWallCollisions { x := s.cx, y := s.cy } next
      { vx := s.vx, vy := s.vy } W H DEFAULT_CONFIG.ballRadius).hasCollision =
      true
  · rw [if_pos hc]
    exact ⟨cwc_point_x_mem { x := s.cx, y := s.cy } next
        { vx := s.vx, vy := s.vy } W H DEFAULT_CONFIG.ballRadius hW,
      cwc_point_y_mem { x := s.cx, y := s.cy } next
        { vx := s.vx, vy := s.vy } W H DEFAULT_CONFIG.ballRadius hH⟩
  · rw [if_neg hc]
    obtain ⟨h1, h2, h3, h4⟩ := cwc_no_collision { x := s.cx, y := s.cy }
      next { vx := s.vx, vy := s.vy } W H DEFAULT_CONFIG.ballRadius
      (Bool.not_eq_true _ ▸ hc)
    simp only [hnext] at h1 h2 h3 h4
    constructor <;> constructor <;> simp <;> linarith

/-- Every point the loop appends is contained in the inset playing
surface. -/
lemma simLoop_mem_bounds (W H : ℝ) (maxB : ℕ)
    (hW : 2 * DEFAULT_CONFIG.ballRadius ≤ W)
    (hH : 2 * DEFAULT_CONFIG.ballRadius ≤ H) :
    ∀ fuel s, ∀ pt ∈ simLoop W H maxB fuel s,
      (DEFAULT_CONFIG.ballRadius ≤ pt.x ∧
        pt.x ≤ W - DEFAULT_CONFIG.ballRadius) ∧
      (DEFAULT_CONFIG.ballRadius ≤ pt.y ∧
        pt.y ≤ H - DEFAULT_CONFIG.ballRadius)
  | 0, s => by simp [simLoop]
  | fuel + 1, s => by
    intro pt hpt
    simp only [simLoop] at hpt
    split_ifs at hpt with hb hv
    · simp at hpt
    · rcases List.mem_cons.mp hpt with heq | hmem
      · subst heq
        exact simStep_pos_mem W H s hW hH
      · exact simLoop_mem_bounds W H maxB hW hH fuel _ pt hmem
    · simp at hpt

/-- C7 counterexample: a launch originating outside the table (origin
`(-100, 50)`, table 300 × 150, both extents above one ball diameter)
produces a path whose first point is the origin itself, violating
`ballRadius ≤ x`. -/
theorem containment_counterexample :
    2 * DEFAULT_CONFIG.ballRadius < (300 : ℝ) ∧
    2 * DEFAULT_CONFIG.ballRadius < (150 : ℝ) ∧
    ({ x := -100, y := 50 } : Point) ∈ getPredictedPath
      { x := -100, y := 50, angleInDegrees := JSNum.fin 0, force := 50,
        tableWidth := 300, tableHeight := 150 } ∧
    ¬(DEFAULT_CONFIG.ballRadius ≤ (-100 : ℝ)) := by
  refine ⟨by norm_num [DEFAULT_CONFIG], by norm_num [DEFAULT_CONFIG], ?_,
    by norm_num [DEFAULT_CONFIG]⟩
  rw [getPredictedPath_valid_eq
    { x := -100, y := 50, angleInDegrees := JSNum.fin 0, force := 50,
      tableWidth := 300, tableHeight := 150 } (by norm_num) rfl]
  exact List.mem_cons_self _ _

/-- C7 (amended): every point of the returned path EXCEPT the first
(the unchecked launch origin) satisfies
`ballRadius ≤ x ≤ width - ballRadius` and
`ballRadius ≤ y ≤ height - ballRadius`, for sane table extents; the
containment claim holds for the whole path exactly when the launch
origin itself lies within those bounds, since the first point equals the
origin. -/
theorem path_tail_contained (p : PredictedPathParams)
    (hW : 2 * DEFAULT_CONFIG.ballRadius < p.tableWidth)
    (hH : 2 * DEFAULT_CONFIG.ballRadius < p.tableHeight) :
    ∀ pt ∈ (getPredictedPath p).tail,
      (DEFAULT_CONFIG.ballRadius ≤ pt.x ∧
        pt.x ≤ p.tableWidth - DEFAULT_CONFIG.ballRadius) ∧
      (DEFAULT_CONFIG.ballRadius ≤ pt.y ∧
        pt.y ≤ p.tableHeight - DEFAULT_CONFIG.ballRadius) := by
  intro pt hpt
  by_cases h : p.force ≤ 0 ∨ p.angleInDegrees.isFinite = false
  · rw [getPredictedPath_invalid_eq_nil p h] at hpt
    simp at hpt
  · rw [not_or] at h
    obtain ⟨hf, ha⟩ := h
    rw [getPredictedPath_valid_eq p (not_le.mp hf)
      (by simpa using ha), List.tail_cons] at hpt
    exact simLoop_mem_bounds p.tableWidth p.tableHeight p.maxBounces
      (le_of_lt hW) (le_of_lt hH) _ _ pt hpt

/-- A non-colliding loop body moves the ball linearly and applies
friction only. -/
lemma simStep_no_collision (W H : ℝ) (s : SimState)
    (h1 : ¬(s.cx + s.vx * DEFAULT_CONFIG.timeStep -
      DEFAULT_CONFIG.ballRadius ≤ 0))
    (h2 : ¬(s.cx + s.vx * DEFAULT_CONFIG.timeStep +
      DEFAULT_CONFIG.ballRadius ≥ W))
    (h3 : ¬(s.cy + s.vy * DEFAULT_CONFIG.timeStep -
      DEFAULT_CONFIG.ballRadius ≤ 0))
    (h4 : ¬(s.cy + s.vy * DEFAULT_CONFIG.timeStep +
      DEFAULT_CONFIG.ballRadius ≥ H)) :
    simStep W H s =
      { cx := s.cx + s.vx * DEFAULT_CONFIG.timeStep
        cy := s.cy + s.vy * DEFAULT_CONFIG.timeStep
        vx := s.vx * DEFAULT_CONFIG.friction
        vy := s.vy * DEFAULT_CONFIG.friction
        bounces := s.bounces } := by
  simp only [simStep, checkWallCollisions]
  rw [if_neg]
  simp only [if_neg h1, if_neg h2, if_neg h3, if_neg h4, Bool.or_self,
    Bool.false_eq_true, not_false_eq_true]

/-- The position reached by the first iteration of a loop run that
neither exhausts the budget nor stalls is a member of the loop's
output. -/
lemma simLoop_head_mem (W H : ℝ) (maxB fuel : ℕ) (s : SimState)
    (pt : Point) (hb : s.bounces < maxB)
    (hv : ¬(speed (simStep W H s).vx (simStep W H s).vy <
      DEFAULT_CONFIG.minVelocity))
    (hpt : pt = { x := (simStep W H s).cx, y := (simStep W H s).cy })
    (hfuel : ∃ n, fuel = n + 1) :
    pt ∈ simLoop W H maxB fuel s := by
  obtain ⟨n, rfl⟩ := hfuel
  simp only [simLoop, if_pos hb, if_neg hv]
  rw [hpt]
  exact List.mem_cons_self _ _

/-- Witness for C7 (amended): on the spec's concrete scenario the first
simulated point `(75.6, 75)` lies in the path's tail and satisfies the
containment bounds. -/
theorem path_tail_contained_witness :
    (DEFAULT_CONFIG.ballRadius ≤ (75.6 : ℝ) ∧
      (75.6 : ℝ) ≤ 300 - DEFAULT_CONFIG.ballRadius) ∧
    (DEFAULT_CONFIG.ballRadius ≤ (75 : ℝ) ∧
      (75 : ℝ) ≤ 150 - DEFAULT_CONFIG.ballRadius) := by
  have hmem : ({ x := 75.6, y := 75 } : Point) ∈ (getPredictedPath
      { x := 75, y := 75, angleInDegrees := JSNum.fin 0, force := 50,
        tableWidth := 300, tableHeight := 150, maxBounces := 8 }).tail := by
    rw [getPredictedPath_valid_eq
      { x := 75, y := 75, angleInDegrees := JSNum.fin 0, force := 50,
        tableWidth := 300, tableHeight := 150, maxBounces := 8 }
      (by norm_num) rfl, List.tail_cons]
    refine simLoop_head_mem _ _ _ _ _ _ (by norm_num) ?_ ?_
      ⟨298, by norm_num [DEFAULT_CONFIG]⟩
    · rw [simStep_no_collision 300 150 _
        (by norm_num [JSNum.toReal, DEFAULT_CONFIG])
        (by norm_num [JSNum.toReal, DEFAULT_CONFIG])
        (by norm_num [JSNum.toReal, DEFAULT_CONFIG])
        (by norm_num [JSNum.toReal, DEFAULT_CONFIG])]
      rw [not_lt, speed]
      refine (Real.le_sqrt' (by norm_num [DEFAULT_CONFIG])).mpr ?_
      norm_num [JSNum.toReal, DEFAULT_CONFIG]
    · rw [simStep_no_collision 300 150 _
        (by norm_num [JSNum.toReal, DEFAULT_CONFIG])
        (by norm_num [JSNum.toReal, DEFAULT_CONFIG])
        (by norm_num [JSNum.toReal, DEFAULT_CONFIG])
        (by norm_num [JSNum.toReal, DEFAULT_CONFIG])]
      norm_num [Point.mk.injEq, JSNum.toReal, DEFAULT_CONFIG]
  exact path_tail_contained
    { x := 75, y := 75, angleInDegrees := JSNum.fin 0, force := 50,
      tableWidth := 300, tableHeight := 150, maxBounces := 8 }
    (by norm_num [DEFAULT_CONFIG]) (by norm_num [DEFAULT_CONFIG])
    { x := 75.6, y := 75 } hmem

/-- Scaling both components by a common non-negative factor scales the
speed by that factor. -/
lemma speed_scale (c vx vy : ℝ) (hc : 0 ≤ c) :
    speed (vx * c) (vy * c) = c * speed vx vy := by
  rw [speed, speed]
  have hsum : vx * c * (vx * c) + vy * c * (vy * c) =
      c ^ 2 * (vx * vx + vy * vy) := by ring
  rw [hsum, Real.sqrt_mul (sq_nonneg c), Real.sqrt_sq hc]

/-- C8: the source friction constant lies in `(0, 1)`; a non-bounce
iteration multiplies the speed exactly by `friction` (hence per-step
speeds ignoring bounce steps are non-increasing); a bounce iteration
multiplies each velocity component's magnitude exactly by the
restitution factor 0.92 and then by `friction`. -/
theorem speed_decay_per_step (W H : ℝ) (s : SimState) :
    (0 < DEFAULT_CONFIG.friction ∧ DEFAULT_CONFIG.friction < 1) ∧
    (stepCollides W H s = false →
      speed (simStep W H s).vx (simStep W H s).vy =
        DEFAULT_CONFIG.friction * speed s.vx s.vy ∧
      speed (simStep W H s).vx (simStep W H s).vy ≤ speed s.vx s.vy) ∧
    (stepCollides W H s = true →
      |(simStep W H s).vx| = |s.vx| * 0.92 * DEFAULT_CONFIG.friction ∧
      |(simStep W H s).vy| = |s.vy| * 0.92 * DEFAULT_CONFIG.friction) := by
  have hF0 : (0 : ℝ) ≤ DEFAULT_CONFIG.friction := by norm_num [DEFAULT_CONFIG]
  have hF1 : DEFAULT_CONFIG.friction ≤ 1 := by norm_num [DEFAULT_CONFIG]
  refine ⟨⟨by norm_num [DEFAULT_CONFIG], by norm_num [DEFAULT_CONFIG]⟩,
    ?_, ?_⟩
  · intro hc
    rw [stepCollides] at hc
    simp only [simStep]
    rw [if_neg (by simp [hc])]
    refine ⟨speed_scale DEFAULT_CONFIG.friction s.vx s.vy hF0, ?_⟩
    rw [speed_scale DEFAULT_CONFIG.friction s.vx s.vy hF0]
    exact mul_le_of_le_one_left (Real.sqrt_nonneg _) hF1
  · intro hc
    rw [stepCollides] at hc
    simp only [simStep]
    rw [if_pos hc]
    have hx := cwc_abs_vx { x := s.cx, y := s.cy }
      { x := s.cx + s.vx * DEFAULT_CONFIG.timeStep
        y := s.cy + s.vy * DEFAULT_CONFIG.timeStep }
      { vx := s.vx, vy := s.vy } W H DEFAULT_CONFIG.ballRadius
    have hy := cwc_abs_vy { x := s.cx, y := s.cy }
      { x := s.cx + s.vx * DEFAULT_CONFIG.timeStep
        y := s.cy + s.vy * DEFAULT_CONFIG.timeStep }
      { vx := s.vx, vy := s.vy } W H DEFAULT_CONFIG.ballRadius
    constructor
    · rw [abs_mul, abs_mul,
        abs_of_nonneg (show (0 : ℝ) ≤ 0.92 by norm_num),
        abs_of_nonneg hF0, hx]
    · rw [abs_mul, abs_mul,
        abs_of_nonneg (show (0 : ℝ) ≤ 0.92 by norm_num),
        abs_of_nonneg hF0, hy]

/-- Witness for C8: a free-flight step from the table centre and a
right-wall bounce step on the 300 × 150 table. -/
theorem speed_decay_per_step_witness :
    (speed (simStep 300 150
        { cx := 75, cy := 75, vx := 1, vy := 0, bounces := 0 }).vx
      (simStep 300 150
        { cx := 75, cy := 75, vx := 1, vy := 0, bounces := 0 }).vy =
      DEFAULT_CONFIG.friction * speed 1 0) ∧
    |(simStep 300 150
        { cx := 290, cy := 75, vx := 50, vy := 0, bounces := 0 }).vx| =
      |(50 : ℝ)| * 0.92 * DEFAULT_CONFIG.friction := by
  constructor
  · exact ((speed_decay_per_step 300 150
      { cx := 75, cy := 75, vx := 1, vy := 0, bounces := 0 }).2.1
      (by simp only [stepCollides, checkWallCollisions]
          norm_num [DEFAULT_CONFIG])).1
  · exact ((speed_decay_per_step 300 150
      { cx := 290, cy := 75, vx := 50, vy := 0, bounces := 0 }).2.2
      (by simp only [stepCollides, checkWallCollisions]
          norm_num [DEFAULT_CONFIG])).1

/-- C10: one loop iteration advances the bounce counter by at most one;
in particular a simultaneous two-wall corner contact (here the top-left
corner: both the left and the top boundary condition hold at the
proposed point) increments it by exactly one, consuming a single unit of
the bounce budget. -/
theorem bounce_budget_single_increment (W H : ℝ) (s : SimState) :
    (simStep W H s).bounces ≤ s.bounces + 1 ∧
    (s.cx + s.vx * DEFAULT_CONFIG.timeStep - DEFAULT_CONFIG.ballRadius ≤ 0 →
     s.cy + s.vy * DEFAULT_CONFIG.timeStep - DEFAULT_CONFIG.ballRadius ≤ 0 →
     (simStep W H s).bounces = s.bounces + 1) := by
  refine ⟨simStep_bounces_le W H s, ?_⟩
  intro hx hy
  have hc : (checkWallCollisions { x := s.cx, y := s.cy }
      { x := s.cx + s.vx * DEFAULT_CONFIG.timeStep
        y := s.cy + s.vy * DEFAULT_CONFIG.timeStep }
      { vx := s.vx, vy := s.vy } W H
      DEFAULT_CONFIG.ballRadius).hasCollision = true := by
    simp only [checkWallCollisions]
    rw [if_pos hx]
    simp
  simp only [simStep]
  rw [if_pos hc]

/-- Witness for C10: a step into the top-left corner from `(5, 5)` with
velocity `(-10, -10)` increments the counter from 0 to exactly 1. -/
theorem bounce_budget_single_increment_witness :
    ((5 : ℝ) + (-10) * DEFAULT_CONFIG.timeStep -
      DEFAULT_CONFIG.ballRadius ≤ 0) ∧
    (simStep 300 150
      { cx := 5, cy := 5, vx := -10, vy := -10, bounces := 0 }).bounces =
      0 + 1 :=
  ⟨by norm_num [DEFAULT_CONFIG],
   (bounce_budget_single_increment 300 150
     { cx := 5, cy := 5, vx := -10, vy := -10, bounces := 0 }).2
     (by norm_num [DEFAULT_CONFIG]) (by norm_num [DEFAULT_CONFIG])⟩

/-! ### Lemmas about the angle helpers -/

/-- The `while (angle < 0)` loop returns a non-negative angle congruent
to its input modulo `2π`. -/
lemma normUp_spec (a : ℝ) :
    0 ≤ normUp a ∧ ∃ k : ℤ, normUp a = a + 2 * Real.pi * k := by
  induction a using normUp.induct with
  | case1 a h ih =>
    obtain ⟨h0, k, hk⟩ := ih
    rw [normUp, dif_pos h]
    refine ⟨h0, k + 1, ?_⟩
    rw [hk]
    push_cast
    ring
  | case2 a h =>
    rw [normUp, dif_neg h]
    exact ⟨not_lt.mp h, 0, by simp⟩

/-- The `while (angle >= 2π)` loop, applied to a non-negative angle,
returns an angle in `[0, 2π)` congruent to its input modulo `2π`. -/
lemma normDown_spec : ∀ a : ℝ, 0 ≤ a →
    0 ≤ normDown a ∧ normDown a < 2 * Real.pi ∧
    ∃ k : ℤ, normDown a = a - 2 * Real.pi * k := by
  intro a
  induction a using normDown.induct with
  | case1 a h ih =>
    intro _
    have h0' : 0 ≤ a - 2 * Real.pi := by linarith [Real.two_pi_pos]
    obtain ⟨g0, glt, k, hk⟩ := ih h0'
    rw [normDown, dif_pos h]
    refine ⟨g0, glt, k + 1, ?_⟩
    rw [hk]
    push_cast
    ring
  | case2 a h =>
    intro h0
    rw [normDown, dif_neg h]
    exact ⟨h0, not_le.mp h, 0, by simp⟩

/-- Helper `normalizeAngleOld` lands in `[0, 2π)` and only shifts its input by
an integer multiple of `2π`. -/
lemma normalizeAngleOld_spec (a : ℝ) :
    0 ≤ normalizeAngleOld a ∧ normalizeAngleOld a < 2 * Real.pi ∧
    ∃ k : ℤ, a - normalizeAngleOld a = 2 * Real.pi * k := by
  obtain ⟨h0, k1, hk1⟩ := normUp_spec a
  obtain ⟨g0, glt, k2, hk2⟩ := normDown_spec (normUp a) h0
  refine ⟨g0, glt, k2 - k1, ?_⟩
  show a - normDown (normUp a) = _
  rw [hk2, hk1]
  push_cast
  ring

/-- Helper `normalizeAngle` lands in `[0, 360)` and only shifts its input by an
integer multiple of 360. -/
lemma normalizeAngle_spec (a : ℝ) :
    0 ≤ normalizeAngle a ∧ normalizeAngle a < 360 ∧
    ∃ k : ℤ, a - normalizeAngle a = 360 * k := by
  simp only [normalizeAngle, jsMod, jsTrunc]
  by_cases h : 0 ≤ a / 360
  · rw [if_pos h]
    have hfl : ((⌊a / 360⌋ : ℤ) : ℝ) ≤ a / 360 := Int.floor_le _
    have hfl2 : a / 360 < (⌊a / 360⌋ : ℤ) + 1 := Int.lt_floor_add_one _
    have hn0 : 0 ≤ a - 360 * (⌊a / 360⌋ : ℤ) := by linarith
    have hn1 : a - 360 * ((⌊a / 360⌋ : ℤ) : ℝ) < 360 := by linarith
    rw [if_neg (not_lt.mpr hn0)]
    exact ⟨hn0, hn1, ⟨⌊a / 360⌋, by ring⟩⟩
  · rw [if_neg h]
    have hcl : a / 360 ≤ ((⌈a / 360⌉ : ℤ) : ℝ) := Int.le_ceil _
    have hcl2 : ((⌈a / 360⌉ : ℤ) : ℝ) < a / 360 + 1 := Int.ceil_lt_add_one _
    have hn0 : a - 360 * ((⌈a / 360⌉ : ℤ) : ℝ) ≤ 0 := by linarith
    have hn1 : -360 < a - 360 * ((⌈a / 360⌉ : ℤ) : ℝ) := by linarith
    by_cases hlt : a - 360 * ((⌈a / 360⌉ : ℤ) : ℝ) < 0
    · rw [if_pos hlt]
      refine ⟨by linarith, by linarith, ⟨⌈a / 360⌉ - 1, ?_⟩⟩
      push_cast
      ring
    · rw [if_neg hlt]
      exact ⟨by linarith, by linarith, ⟨⌈a / 360⌉, by ring⟩⟩

/-- C9 counterexample: on the points `(0,0)` and `(0,1)` the legacy
`calculateAngle` returns `π/2` (radians) while the canonical
`calculateAngleBetweenPoints` returns 90 (degrees), so the two are not
pointwise equal. -/
theorem legacy_angle_units_counterexample :
    calculateAngle { x := 0, y := 0 } { x := 0, y := 1 } ≠
      calculateAngleBetweenPoints { x := 0, y := 0 } { x := 0, y := 1 } := by
  have harg : atan2 ((1 : ℝ) - 0) ((0 : ℝ) - 0) = Real.pi / 2 := by
    have hI : ({ re := (0 : ℝ) - 0, im := (1 : ℝ) - 0 } : ℂ) = Complex.I := by
      apply Complex.ext <;> simp [Complex.I]
    rw [atan2, hI, Complex.arg_I]
  simp only [calculateAngle, calculateAngleBetweenPoints, harg]
  have hpi := Real.pi_gt_three
  have hne : Real.pi ≠ 0 := by linarith
  have h90 : Real.pi / 2 * 180 / Real.pi = 90 := by
    field_simp
    ring
  rw [h90]
  intro heq
  have hlt : Real.pi < 3.15 := Real.pi_lt_d2
  linarith

/-- C9 (amended): `calculateDistanceOld` agrees with `calculateDistance`
on every input; the legacy `calculateAngle` computes the same bearing as
`calculateAngleBetweenPoints` but in radians rather than degrees
(`calculateAngleBetweenPoints = radiansToDegrees ∘ calculateAngle`); and
`normalizeAngleOld` is the radian analogue of `normalizeAngle`: it
normalises into `[0, 2π)` modulo `2π` where `normalizeAngle` normalises
into `[0, 360)` modulo 360 — so the two angle helpers and the two
normalisers are unit-converted counterparts, not pointwise-equal
aliases. -/
theorem legacy_helpers_relation :
    (∀ p q : Point, calculateDistanceOld p q = calculateDistance p q) ∧
    (∀ p q : Point, calculateAngleBetweenPoints p q =
      radiansToDegrees (calculateAngle p q)) ∧
    (∀ a : ℝ, 0 ≤ normalizeAngleOld a ∧
      normalizeAngleOld a < 2 * Real.pi ∧
      ∃ k : ℤ, a - normalizeAngleOld a = 2 * Real.pi * k) ∧
    (∀ a : ℝ, 0 ≤ normalizeAngle a ∧ normalizeAngle a < 360 ∧
      ∃ k : ℤ, a - normalizeAngle a = 360 * k) :=
  ⟨fun _ _ => rfl, fun _ _ => rfl, normalizeAngleOld_spec,
    normalizeAngle_spec⟩

end BallPhysics
